import Mathlib

/-!
Verification of the OMOP Atlas backend's vocabulary search and concept-set
engine, as a shallow embedding of `services/vocabulary.py`,
`services/concept_set.py`, `services/exceptions.py`, `schemas/concept.py`,
`schemas/concept_set.py` and the relevant ORM models.

Conventions of the embedding:
* the relational store is a list of rows; a SQL `WHERE` clause is a filter,
  `ORDER BY ... DESC` is a stable descending sort, `LIMIT l OFFSET o` is
  `(·.drop o).take l`;
* Python string operations are modelled character-listwise (`str.lower` as
  ASCII lowering, `str.split()` as whitespace splitting that drops empty
  tokens, `str.strip()` as trimming whitespace on both ends, substring tests
  for `ILIKE '%t%'`);
* the Redis cache is an association list of key/document pairs; a cache
  client is either absent, normal, or failing (every call raises); raised
  cache errors are swallowed exactly where the source swallows them;
* Pydantic validation (`model_validate`, with `str_strip_whitespace=True`)
  strips every string field; `model_dump_json` / `model_validate_json` are
  modelled as a wire record whose date fields are ISO `YYYY-MM-DD` strings.
-/

deriving instance DecidableEq for Except

namespace OmopAtlas

/-! ### Character and string primitives -/

/-- Whitespace characters recognised by Python's `str.split()` / `str.strip()`
(ASCII subset). -/
def isPySpace (c : Char) : Bool :=
  c == ' ' || c == '\t' || c == '\n' || c == '\r' || c == '\x0b' || c == '\x0c'

/-- ASCII lowercasing of one character, modelling `str.lower()` /
`func.lower` on the ASCII names used by the engine. -/
def lowerChar (c : Char) : Char :=
  match c with
  | 'A' => 'a' | 'B' => 'b' | 'C' => 'c' | 'D' => 'd' | 'E' => 'e'
  | 'F' => 'f' | 'G' => 'g' | 'H' => 'h' | 'I' => 'i' | 'J' => 'j'
  | 'K' => 'k' | 'L' => 'l' | 'M' => 'm' | 'N' => 'n' | 'O' => 'o'
  | 'P' => 'p' | 'Q' => 'q' | 'R' => 'r' | 'S' => 's' | 'T' => 't'
  | 'U' => 'u' | 'V' => 'v' | 'W' => 'w' | 'X' => 'x' | 'Y' => 'y'
  | 'Z' => 'z'
  | other => other

/-- Lowercase a character list. -/
def lowerList (l : List Char) : List Char := l.map lowerChar

/-- Lowercase a string. -/
def lowerStr (s : String) : String := String.mk (lowerList s.data)

/-- Characters kept by `clean_str` in `_search_lexical`
(`REPLACE(REPLACE(x, ' ', ''), '-', '')` removes every space and hyphen). -/
def keepChar (c : Char) : Bool := !(c == ' ' || c == '-')

/-- The clean_str helper: strip all whitespace (spaces) and hyphens from a name. -/
def cleanChars (l : List Char) : List Char := l.filter keepChar

/-- Substring test on character lists (`x ILIKE '%t%'` after lowering both
sides, and Python's `in` on strings). -/
def containsSeq (hay pat : List Char) : Bool :=
  (List.range (hay.length + 1)).any fun i => pat.isPrefixOf (hay.drop i)

/-- Substring test on strings. -/
def strContains (hay pat : String) : Bool := containsSeq hay.data pat.data

/-- Case-insensitive containment: `column ILIKE '%pat%'` where `pat` is
already lowercase. -/
def containsIC (hay : String) (pat : String) : Bool :=
  containsSeq (lowerList hay.data) pat.data

/-- One pass of non-overlapping, left-to-right removal of `pat`
(`REPLACE(s, pat, '')`, Python `s.replace(pat, '')`), with explicit fuel;
each step consumes at least one character of the haystack. -/
def replaceAllAux (pat : List Char) : Nat → List Char → List Char
  | _, [] => []
  | 0, l => l
  | fuel + 1, c :: rest =>
    if pat ≠ [] && pat.isPrefixOf (c :: rest) then
      replaceAllAux pat fuel ((c :: rest).drop pat.length)
    else
      c :: replaceAllAux pat fuel rest

/-- Full removal, the SQL REPLACE with empty replacement: remove every
(leftmost, non-overlapping) occurrence of `pat` from `l`. -/
def replaceAll (pat l : List Char) : List Char := replaceAllAux pat l.length l

/-- Python `s.split()`: split on runs of whitespace, dropping empty tokens
(the accumulator holds the current token reversed). -/
def splitWsGo : List Char → List Char → List (List Char)
  | cur, [] => if cur.isEmpty then [] else [cur.reverse]
  | cur, c :: rest =>
    if isPySpace c then
      if cur.isEmpty then splitWsGo [] rest else cur.reverse :: splitWsGo [] rest
    else
      splitWsGo (c :: cur) rest

/-- Python `s.split()` on a character list. -/
def splitWs (l : List Char) : List (List Char) := splitWsGo [] l

/-- Python `s.strip()`: drop whitespace from both ends. -/
def pyStrip (s : String) : String :=
  String.mk (((s.data.dropWhile isPySpace).reverse.dropWhile isPySpace).reverse)

/-- Deduplication keeping the first occurrence of each element
(the observable content of Python's `set(...)` and SQL `UNION`). -/
def dedupKF {α : Type} [DecidableEq α] : List α → List α
  | [] => []
  | a :: l => a :: (dedupKF l).filter (fun x => x ≠ a)

/-! ### Dates and their ISO serialization

`models/vocabulary.py` stores `valid_start_date` / `valid_end_date` as SQL
dates (Python `datetime.date`); `schemas/concept.py` serializes them as ISO
`YYYY-MM-DD` strings in `model_dump_json` and parses them back in
`model_validate_json`. -/

/-- A calendar date as held by a `datetime.date` value. -/
structure DateV where
  year : Nat
  month : Nat
  day : Nat
deriving DecidableEq

/-- Range constraints of Python's `datetime.date` (month-length fine
structure is not modelled). -/
def validDate (d : DateV) : Prop :=
  1 ≤ d.year ∧ d.year ≤ 9999 ∧ 1 ≤ d.month ∧ d.month ≤ 12 ∧ 1 ≤ d.day ∧ d.day ≤ 31

instance : DecidablePred validDate := fun d => by unfold validDate; infer_instance

/-- Decimal digit character for `n < 10`. -/
def digitChar : Nat → Char
  | 0 => '0' | 1 => '1' | 2 => '2' | 3 => '3' | 4 => '4'
  | 5 => '5' | 6 => '6' | 7 => '7' | 8 => '8' | _ => '9'

/-- Numeric value of a decimal digit character. -/
def digitVal (c : Char) : Nat := c.toNat - 48

/-- Four-digit zero-padded decimal rendering of `n ≤ 9999` (Python 04d). -/
def pad4 (n : Nat) : List Char :=
  [digitChar (n / 1000 % 10), digitChar (n / 100 % 10), digitChar (n / 10 % 10),
    digitChar (n % 10)]

/-- Two-digit zero-padded decimal rendering of `n ≤ 99` (Python 02d). -/
def pad2 (n : Nat) : List Char :=
  [digitChar (n / 10 % 10), digitChar (n % 10)]

/-- ISO rendering of a date (`date.isoformat()`): `YYYY-MM-DD`. -/
def renderDate (d : DateV) : String :=
  String.mk (pad4 d.year ++ '-' :: (pad2 d.month ++ '-' :: pad2 d.day))

/-- Parse an ISO `YYYY-MM-DD` string back into a date, rejecting malformed
text and out-of-range components (Pydantic's date validation). -/
def parseDate (s : String) : Option DateV :=
  match s.data with
  | [y1, y2, y3, y4, h1, m1, m2, h2, d1, d2] =>
    if h1 == '-' && h2 == '-' &&
        (y1.isDigit && y2.isDigit && y3.isDigit && y4.isDigit) &&
        (m1.isDigit && m2.isDigit && d1.isDigit && d2.isDigit) then
      let d : DateV :=
        { year := digitVal y1 * 1000 + digitVal y2 * 100 + digitVal y3 * 10 + digitVal y4
          month := digitVal m1 * 10 + digitVal m2
          day := digitVal d1 * 10 + digitVal d2 }
      if validDate d then some d else none
    else none
  | _ => none

/-! ### Data model (`models/vocabulary.py`, `schemas/concept.py`)

The ORM row class `Concept` and the Pydantic schema `Concept` carry the same
ten fields; one record type serves both, with `model_validate` embedded as a
field-wise normalization (`validateConcept`). -/

/-- A `concept` table row / `Concept` schema value. -/
structure Concept where
  concept_id : Int
  concept_name : String
  domain_id : String
  vocabulary_id : String
  concept_class_id : String
  standard_concept : Option String
  concept_code : String
  valid_start_date : DateV
  valid_end_date : DateV
  invalid_reason : Option String
deriving DecidableEq

/-- A `concept_synonym` table row (fields used by the engine). -/
structure ConceptSynonym where
  concept_id : Int
  concept_synonym_name : String
deriving DecidableEq

/-- The read-only vocabulary store slice the search engine queries. -/
structure VocabStore where
  concepts : List Concept
  synonyms : List ConceptSynonym
deriving DecidableEq

/-- Search criteria (`ConceptSearch` in `schemas/concept.py`), with the
source's defaults. -/
structure ConceptSearch where
  query : String := ""
  domain_id : List String := []
  vocabulary_id : List String := []
  concept_class_id : List String := []
  standard_concept : Option String := none
  invalid_reason : Option String := none
  is_lexical : Bool := false
deriving DecidableEq

/-- Pydantic `model_validate` on the `Concept` schema: with
`str_strip_whitespace=True` every string field is stripped; numeric and date
fields pass through. -/
def validateConcept (c : Concept) : Concept :=
  { c with
    concept_name := pyStrip c.concept_name
    domain_id := pyStrip c.domain_id
    vocabulary_id := pyStrip c.vocabulary_id
    concept_class_id := pyStrip c.concept_class_id
    standard_concept := c.standard_concept.map pyStrip
    concept_code := pyStrip c.concept_code
    invalid_reason := c.invalid_reason.map pyStrip }

/-- The wire form of a concept as cached in Redis
(`model_dump_json`: snake_case keys, dates as ISO strings). -/
structure ConceptWire where
  concept_id : Int
  concept_name : String
  domain_id : String
  vocabulary_id : String
  concept_class_id : String
  standard_concept : Option String
  concept_code : String
  valid_start_date : String
  valid_end_date : String
  invalid_reason : Option String
deriving DecidableEq

/-- Serialization of a concept (`model_dump_json`): fields as-is, dates to
ISO text. -/
def serializeConcept (c : Concept) : ConceptWire :=
  { concept_id := c.concept_id
    concept_name := c.concept_name
    domain_id := c.domain_id
    vocabulary_id := c.vocabulary_id
    concept_class_id := c.concept_class_id
    standard_concept := c.standard_concept
    concept_code := c.concept_code
    valid_start_date := renderDate c.valid_start_date
    valid_end_date := renderDate c.valid_end_date
    invalid_reason := c.invalid_reason }

/-- Deserialization (`Concept.model_validate_json`) of a cached document:
parse the dates
(failure raises, which the caller's `try` turns into a cache miss) and strip
every string field (`str_strip_whitespace=True`). -/
def deserializeConcept (w : ConceptWire) : Option Concept :=
  match parseDate w.valid_start_date, parseDate w.valid_end_date with
  | some sd, some ed =>
    some
      { concept_id := w.concept_id
        concept_name := pyStrip w.concept_name
        domain_id := pyStrip w.domain_id
        vocabulary_id := pyStrip w.vocabulary_id
        concept_class_id := pyStrip w.concept_class_id
        standard_concept := w.standard_concept.map pyStrip
        concept_code := pyStrip w.concept_code
        valid_start_date := sd
        valid_end_date := ed
        invalid_reason := w.invalid_reason.map pyStrip }
  | _, _ => none

/-! ### Errors (`services/exceptions.py`) and store integrity violations -/

/-- Kinds of constraint violation the store can raise on a write, with
SQLite's message rendering (the engine inspects `str(e)`). -/
inductive ViolationKind where
  | uniqueViolation
  | notNullViolation
  | foreignKeyViolation
deriving DecidableEq

/-- A store `IntegrityError`: which constraint kind fired and its target
(table.column list as SQLite prints it). -/
structure IntegrityViolation where
  kind : ViolationKind
  target : String
deriving DecidableEq

/-- The message text (`str(e)`) of the integrity error, as rendered by
SQLite. -/
def violationMessage (v : IntegrityViolation) : String :=
  match v.kind with
  | .uniqueViolation => "UNIQUE constraint failed: " ++ v.target
  | .notNullViolation => "NOT NULL constraint failed: " ++ v.target
  | .foreignKeyViolation => "FOREIGN KEY constraint failed"

/-- The unique-constraint target of the concept-set name column. -/
def nameFieldTarget : String := "concept_set.concept_set_name"

/-- The domain errors of `services/exceptions.py`, plus a re-raised
`IntegrityError` and Python's builtin `AttributeError` (raised by the
`data.name` reads in `services/concept_set.py`: the Pydantic schemas declare
the field `concept_set_name` with alias `name`, and Pydantic v2 exposes no
attribute access by alias). `ConceptNotFound` is raised with a single id by
the vocabulary lookup and with the set of missing ids by
`_validate_items`. -/
inductive ServiceError where
  | conceptNotFoundById (concept_id : Int)
  | conceptNotFound (missing : List Int)
  | duplicateResource (name : String)
  | validation (msg : String)
  | integrity (violation : IntegrityViolation)
  | attributeError (attr : String)
deriving DecidableEq

/-- Error taxonomy kinds (spec section 7): the exception class an error is
surfaced through. -/
inductive ErrKind where
  | notFound
  | conceptReference
  | duplicate
  | validationKind
  | integrityKind
  | pythonAttributeKind
deriving DecidableEq

/-- The exception class of each raised error. Both `ConceptNotFound` payload
shapes are the one `ConceptNotFound` class, used by the engine as its
concept-reference error. -/
def ServiceError.kind : ServiceError → ErrKind
  | .conceptNotFoundById _ => .conceptReference
  | .conceptNotFound _ => .conceptReference
  | .duplicateResource _ => .duplicate
  | .validation _ => .validationKind
  | .integrity _ => .integrityKind
  | .attributeError _ => .pythonAttributeKind

/-- The `except IntegrityError` branch of `create_concept_set` /
`update_concept_set` (lines 75-79 and 129-133 of
`services/concept_set.py`): translate to `DuplicateResourceError` when
`str(e)` contains `"concept_set_name"` or `"UNIQUE constraint failed"`,
otherwise re-raise the integrity error unchanged. In the staged program this
branch is dead code: both guarded flushes sit after a `data.name` read that
raises `AttributeError` first (see `create_concept_set` /
`update_concept_set` below). -/
def integrityHandler (v : IntegrityViolation) (name : String) : ServiceError :=
  if strContains (violationMessage v) "concept_set_name" ||
      strContains (violationMessage v) "UNIQUE constraint failed" then
    .duplicateResource name
  else
    .integrity v

/-! ### The Redis cache -/

/-- Cache contents: association list from key to cached JSON document (only
concept documents are needed by the claims). Insertion at the head models
`SET` overwriting, since lookup takes the first match. -/
abbrev CacheState : Type := List (String × ConceptWire)

/-- A cache client that is present: either healthy, or failing (every
`get`/`set` call raises). An absent client is `Option.none` at use sites,
mirroring `self.redis` being `None`. -/
inductive CacheMode where
  | normal
  | failing
deriving DecidableEq

/-- Cache `GET key`. -/
def cacheLookup (cache : CacheState) (k : String) : Option ConceptWire :=
  (List.find? (fun e => e.1 = k) cache).map (fun e => e.2)

/-- Cache `SET key doc` (TTL not modelled). -/
def cacheInsert (cache : CacheState) (k : String) (w : ConceptWire) : CacheState :=
  (k, w) :: cache

/-- Cache key for a single concept (`f"concept:{concept_id}"`). -/
def cacheKey (concept_id : Int) : String := "concept:" ++ toString concept_id

/-! ### Vocabulary service (`services/vocabulary.py`) -/

/-- The point query `SELECT ... WHERE concept_id == id` followed by
`.first()`. -/
def findConcept (concepts : List Concept) (concept_id : Int) : Option Concept :=
  List.find? (fun c => c.concept_id == concept_id) concepts

/-- The lookup `VocabularyService.get_concept_by_id`: try the cache (all cache errors
swallowed), fall back to the store, validate, write back to the cache (write
errors swallowed too). Returns the result together with the cache state. -/
def get_concept_by_id (redis : Option CacheMode) (cache : CacheState)
    (concepts : List Concept) (concept_id : Int) :
    Except ServiceError Concept × CacheState :=
  let hit : Option Concept :=
    match redis with
    | some .normal =>
      match cacheLookup cache (cacheKey concept_id) with
      | some w => deserializeConcept w
      | none => none
    | some .failing => none
    | none => none
  match hit with
  | some c => (.ok c, cache)
  | none =>
    match findConcept concepts concept_id with
    | none => (.error (.conceptNotFoundById concept_id), cache)
    | some row =>
      let schema := validateConcept row
      let cache' :=
        match redis with
        | some .normal => cacheInsert cache (cacheKey concept_id) (serializeConcept schema)
        | some .failing => cache
        | none => cache
      (.ok schema, cache')

/-- One `WHERE` clause of `_apply_filters` for a list-valued criterion
(Python truthiness: an empty list applies no filter). -/
def listClause (wanted : List String) (value : String) : Bool :=
  if wanted.isEmpty then true else wanted.contains value

/-- The standard-concept clause of `_apply_filters`: `"N"` translates to
`IS NULL`, any other truthy code to equality; `None`/`""` applies nothing. -/
def stdClause (wanted : Option String) (value : Option String) : Bool :=
  match wanted with
  | none => true
  | some s => if s == "" then true
      else if s == "N" then value == none else value == some s

/-- The invalid-reason clause of `_apply_filters`: `"V"` translates to
`IS NULL`, any other truthy code to equality. -/
def invClause (wanted : Option String) (value : Option String) : Bool :=
  match wanted with
  | none => true
  | some s => if s == "" then true
      else if s == "V" then value == none else value == some s

/-- The conjunction of all `_apply_filters` clauses for one row. -/
def filterPred (search : ConceptSearch) (c : Concept) : Bool :=
  listClause search.vocabulary_id c.vocabulary_id &&
  listClause search.domain_id c.domain_id &&
  listClause search.concept_class_id c.concept_class_id &&
  stdClause search.standard_concept c.standard_concept &&
  invClause search.invalid_reason c.invalid_reason

/-- The helper `VocabularyService._apply_filters`: successively narrow the statement by
each truthy criterion (a conjunctive `WHERE`). -/
def _apply_filters (search : ConceptSearch) (rows : List Concept) : List Concept :=
  rows.filter (filterPred search)

/-- The default-mode free-text predicate (non-PostgreSQL branch):
`concept_name ILIKE '%q%' OR concept_code ILIKE '%q%'`. -/
def textMatch (query : String) (c : Concept) : Bool :=
  containsIC c.concept_name (lowerStr query) || containsIC c.concept_code (lowerStr query)

/-- Rows of the default (non-lexical) search, before limit/offset and schema
serialization. -/
def searchDefaultRows (search : ConceptSearch) (db : VocabStore) : List Concept :=
  let base :=
    if search.query == "" then db.concepts
    else db.concepts.filter (textMatch search.query)
  _apply_filters search base

/-! ### Lexical search (`VocabularyService._search_lexical`) -/

/-- Stable insertion keeping longer strings first (`sorted(..., key=len,
reverse=True)`; ties keep their relative order, as Python's stable sort
does). -/
def insertByLenDesc (x : String) : List String → List String
  | [] => [x]
  | y :: ys => if y.length < x.length then x :: y :: ys else y :: insertByLenDesc x ys

/-- Stable longest-first sort of the term list. -/
def sortByLenDesc : List String → List String
  | [] => []
  | x :: xs => insertByLenDesc x (sortByLenDesc xs)

/-- Step 1-3 of the lexical algorithm: lowercase, split on whitespace, add
6-character truncations of terms of length ≥ 8, deduplicate, order
longest-first. -/
def prepareTerms (query : String) : List String :=
  let search_terms := (splitWs (lowerList query.data)).map String.mk
  let truncated_terms :=
    (search_terms.filter (fun t => 8 ≤ t.data.length)).map (fun t => String.mk (t.data.take 6))
  sortByLenDesc (dedupKF (search_terms ++ truncated_terms))

/-- The chained `REPLACE` expression: remove every term (longest first) from
the lowercased name. -/
def removeTerms (terms : List String) (lowName : List Char) : List Char :=
  terms.foldl (fun acc t => replaceAll t.data acc) lowName

/-- The lexical ranking expression of `_search_lexical`:
`CASE WHEN c_len > 0 THEN 1 - r_len / c_len ELSE 0 END` with
`c_len = LEN(clean_str(concept_name))` and
`r_len = LEN(clean_str(REPLACE-chain(lower(concept_name))))`. -/
def lexicalScore (name : String) (terms : List String) : ℚ :=
  let c_len := (cleanChars name.data).length
  let r_len := (cleanChars (removeTerms terms (lowerList name.data))).length
  if 0 < c_len then 1 - (r_len : ℚ) / (c_len : ℚ) else 0

/-- Modelled from the spec's wording of step 5 (for comparison with
`lexicalScore`): L is the length of the *lowercased* name stripped of
whitespace and hyphens, R the stripped length after removing every term
longest-first; score `1 - R/L`, and `0` when `L` is `0`. -/
def specScore (name : String) (terms : List String) : ℚ :=
  let lowName := lowerList name.data
  let L := (cleanChars lowName).length
  let R := (cleanChars (removeTerms terms lowName)).length
  if L = 0 then 0 else 1 - (R : ℚ) / (L : ℚ)

/-- The `UNION` of matched concept ids: concepts whose name contains any
term of length < 8, together with ids of synonym rows whose synonym name
contains such a term. With no short terms the two subqueries carry no
`WHERE` clause and match every row. -/
def lexMatchedIds (terms : List String) (db : VocabStore) : List Int :=
  let shortTerms := terms.filter (fun t => t.data.length < 8)
  let nameHit : Concept → Bool := fun c =>
    if shortTerms.isEmpty then true
    else shortTerms.any (fun t => containsIC c.concept_name t)
  let synHit : ConceptSynonym → Bool := fun s =>
    if shortTerms.isEmpty then true
    else shortTerms.any (fun t => containsIC s.concept_synonym_name t)
  dedupKF ((db.concepts.filter nameHit).map (fun c => c.concept_id) ++
    (db.synonyms.filter synHit).map (fun s => s.concept_id))

/-- Stable insertion keeping higher scores first (`ORDER BY score DESC`). -/
def insertByScoreDesc {α : Type} (score : α → ℚ) (x : α) : List α → List α
  | [] => [x]
  | y :: ys => if score y < score x then x :: y :: ys else y :: insertByScoreDesc score x ys

/-- Stable descending sort by score. -/
def sortByScoreDesc {α : Type} (score : α → ℚ) : List α → List α
  | [] => []
  | x :: xs => insertByScoreDesc score x (sortByScoreDesc score xs)

/-- Rows of `_search_lexical` before limit/offset and schema serialization:
join the concept table to the matched-id union, apply `_apply_filters`,
order by the ranking expression descending. -/
def searchLexicalRows (search : ConceptSearch) (db : VocabStore) : List Concept :=
  let terms := prepareTerms search.query
  let candidates := db.concepts.filter (fun c => (lexMatchedIds terms db).contains c.concept_id)
  sortByScoreDesc (fun c => lexicalScore c.concept_name terms)
    (_apply_filters search candidates)

/-- The search entry point `VocabularyService.search_concepts`: lexical mode when `is_lexical` and
the query is truthy, otherwise the default mode; then `LIMIT limit OFFSET
offset` and Pydantic serialization of each row. -/
def search_concepts (search : ConceptSearch) (limit offset : Nat) (db : VocabStore) :
    List Concept :=
  let rows :=
    if search.is_lexical && !(search.query == "") then searchLexicalRows search db
    else searchDefaultRows search db
  ((rows.drop offset).take limit).map validateConcept

/-- The method form of `search_concepts`: the method body never touches
`self.redis`, so the cache argument is unused (this is the embedded fact the
cache-independence claim is about). -/
def search_concepts_svc (redis : Option CacheMode) (search : ConceptSearch)
    (limit offset : Nat) (db : VocabStore) : List Concept :=
  search_concepts search limit offset db

/-! ### Concept-set manager (`services/concept_set.py`,
`models/concept_set.py`, `schemas/concept_set.py`) -/

/-- A `concept_set` table row (the fields the service reads or writes). -/
structure ConceptSetRow where
  concept_set_id : Nat
  concept_set_name : String
  created_by_id : Nat
deriving DecidableEq

/-- A `concept_set_item` table row. -/
structure ConceptSetItemRow where
  concept_set_item_id : Nat
  concept_set_id : Nat
  concept_id : Int
  is_excluded : Bool
  include_descendants : Bool
  include_mapped : Bool
deriving DecidableEq

/-- Creation payload of one item (`ConceptSetItemCreate`). -/
structure ConceptSetItemCreate where
  concept_id : Int
  is_excluded : Bool := false
  include_descendants : Bool := false
  include_mapped : Bool := false
deriving DecidableEq

/-- Creation payload of a set (`ConceptSetCreate`; field aliased `name` on
the wire). -/
structure ConceptSetCreate where
  name : String
  items : List ConceptSetItemCreate
deriving DecidableEq

/-- Update payload (`ConceptSetUpdate`): both parts optional; `items = none` means
"leave items untouched", distinct from `some []`. -/
structure ConceptSetUpdate where
  name : Option String := none
  items : Option (List ConceptSetItemCreate) := none
deriving DecidableEq

/-- Application store state for the concept-set manager: the read-only
concept table plus the two mutable tables and their autoincrement
counters. -/
structure AppDB where
  concepts : List Concept
  conceptSets : List ConceptSetRow
  items : List ConceptSetItemRow
  nextSetId : Nat := 1
  nextItemId : Nat := 1
deriving DecidableEq

/-- The validator `ConceptSetService._validate_items`: reject duplicate concept ids in the
input, then check every referenced id against the concept table in one
batched query and report the set of missing ids. -/
def _validate_items (concepts : List Concept) (items : List ConceptSetItemCreate) :
    Except ServiceError Unit :=
  let concept_ids_in_input := items.map (fun it => it.concept_id)
  if concept_ids_in_input.length ≠ (dedupKF concept_ids_in_input).length then
    .error (.validation "Duplicate concept IDs found in the items list.")
  else if !concept_ids_in_input.isEmpty then
    let missing := (dedupKF concept_ids_in_input).filter
      (fun i => (findConcept concepts i).isNone)
    if !missing.isEmpty then .error (.conceptNotFound missing) else .ok ()
  else .ok ()

/-- The items of one concept set currently in the store. -/
def setItems (db : AppDB) (concept_set_id : Nat) : List ConceptSetItemRow :=
  db.items.filter (fun it => it.concept_set_id == concept_set_id)

/-- The create operation `ConceptSetService.create_concept_set`. Item
validation runs first and its errors surface unchanged. Whenever validation
passes, line 69 evaluates `data.name` to build the new row — but the
`ConceptSetCreate` schema declares the field `concept_set_name` with alias
`name`, and Pydantic v2 resolves attributes by field name only, so this read
raises `AttributeError` before any row is added, before the flush and before
the commit. `flushErr` stands for the integrity outcome the store's flush
would have reported; it is never consulted because the flush is unreachable.
No store state is ever modified. -/
def create_concept_set (db : AppDB) (data : ConceptSetCreate) (user_id : Nat)
    (flushErr : Option IntegrityViolation) :
    Except ServiceError (ConceptSetRow × List ConceptSetItemRow) × AppDB :=
  match _validate_items db.concepts data.items with
  | .error e => (.error e, db)
  | .ok _ => (.error (.attributeError "name"), db)

/-- The read operation `ConceptSetService.get_concept_set`: fetch by id with items and each
item's concept eagerly populated; a missing set raises `ValidationError`
(the message says "not found" but the exception class is the validation
one). -/
def get_concept_set (db : AppDB) (concept_set_id : Nat) :
    Except ServiceError (ConceptSetRow × List (ConceptSetItemRow × Option Concept)) :=
  match List.find? (fun cs => cs.concept_set_id == concept_set_id) db.conceptSets with
  | none =>
    .error (.validation ("Concept Set with ID " ++ toString concept_set_id ++ " not found."))
  | some cs =>
    .ok (cs, (setItems db concept_set_id).map
      (fun it => (it, findConcept db.concepts it.concept_id)))

/-- The update operation `ConceptSetService.update_concept_set`. The fetch
runs first, so a missing set raises the same `ValidationError` as get. For
every existing set, line 125 then evaluates `data.name` in the rename guard
`if data.name and data.name != ...` — but `ConceptSetUpdate` declares the
field `concept_set_name` with alias `name`, and Pydantic v2 resolves
attributes by field name only, so this read raises `AttributeError`
whatever the payload holds (even `name = None`, `items = None`): the rename,
the item replacement and the commit are unreachable. `flushErr` stands for
the integrity outcome the store's name flush would have reported; it is
never consulted. No store state is ever modified. -/
def update_concept_set (db : AppDB) (concept_set_id : Nat) (data : ConceptSetUpdate)
    (flushErr : Option IntegrityViolation) :
    Except ServiceError (ConceptSetRow × List ConceptSetItemRow) × AppDB :=
  match List.find? (fun cs => cs.concept_set_id == concept_set_id) db.conceptSets with
  | none =>
    (.error (.validation ("Concept Set with ID " ++ toString concept_set_id ++ " not found.")),
      db)
  | some _ => (.error (.attributeError "name"), db)

/-- The delete operation `ConceptSetService.delete_concept_set`: fetch (missing set raises the
same `ValidationError` as get), then delete the row; `delete-orphan`
cascades to its items. -/
def delete_concept_set (db : AppDB) (concept_set_id : Nat) :
    Except ServiceError Unit × AppDB :=
  match List.find? (fun cs => cs.concept_set_id == concept_set_id) db.conceptSets with
  | none =>
    (.error (.validation ("Concept Set with ID " ++ toString concept_set_id ++ " not found.")),
      db)
  | some _ =>
    (.ok (),
      { db with
        conceptSets := db.conceptSets.filter (fun cs => !(cs.concept_set_id == concept_set_id))
        items := db.items.filter (fun it => !(it.concept_set_id == concept_set_id)) })

/-! ### Concrete instances used by the claims -/

/-- A well-formed sample concept (no padding whitespace, valid dates). -/
def conceptTest : Concept :=
  { concept_id := 1
    concept_name := "Test Concept"
    domain_id := "Condition"
    vocabulary_id := "SNOMED"
    concept_class_id := "Clinical Finding"
    standard_concept := some "S"
    concept_code := "100"
    valid_start_date := ⟨2020, 1, 1⟩
    valid_end_date := ⟨2099, 12, 31⟩
    invalid_reason := none }

/-- The longer-named concept of the lexical ranking example. -/
def conceptTestExtended : Concept :=
  { conceptTest with
    concept_id := 2
    concept_name := "Test Concept Extended"
    concept_code := "101" }

/-- Store for the lexical ranking example (deliberately listing the longer
name first, so the output order is due to the score, not the input order). -/
def dbLexical : VocabStore :=
  { concepts := [conceptTestExtended, conceptTest], synonyms := [] }

/-- The lexical search criteria of the ranking example. -/
def searchLexicalTC : ConceptSearch :=
  { query := "Test Concept", is_lexical := true }

/-- A stored concept whose name carries surrounding whitespace — legal in
the `concept` table (`String(255)` has no such constraint). -/
def conceptPadded : Concept :=
  { conceptTest with concept_id := 7, concept_name := " Padded Name " }

/-- An empty application store (no concept sets). -/
def emptyAppDB : AppDB :=
  { concepts := [], conceptSets := [], items := [], nextSetId := 1, nextItemId := 1 }

/-- A unique violation whose target is a different constraint than the
concept-set name column (the composite unique key on `concept_set_item`
style targets). -/
def otherUniqueViolation : IntegrityViolation :=
  { kind := .uniqueViolation, target := "concept_set_item.concept_id" }

/-- A concrete concept-set row. -/
def setRowA : ConceptSetRow :=
  { concept_set_id := 1, concept_set_name := "Set A", created_by_id := 1 }

/-- A concrete item of `setRowA` referencing `conceptTest`. -/
def itemRowA : ConceptSetItemRow :=
  { concept_set_item_id := 1, concept_set_id := 1, concept_id := 1,
    is_excluded := false, include_descendants := false, include_mapped := false }

/-- A store holding one concept, one concept set and one item. -/
def dbOneSet : AppDB :=
  { concepts := [conceptTest], conceptSets := [setRowA], items := [itemRowA],
    nextSetId := 2, nextItemId := 2 }

/-! ### Well-formedness of stored concepts -/

/-- A string with no surrounding whitespace (so `str_strip_whitespace`
validation is the identity on it). -/
def Stripped (s : String) : Prop := pyStrip s = s

/-- An optional string field whose value, when present, is stripped. -/
def OptStripped : Option String → Prop
  | none => True
  | some s => Stripped s

/-- A concept row as the vocabulary loader actually produces it: string
fields carry no surrounding whitespace and the dates are real
`datetime.date` values. -/
def WellFormedConcept (c : Concept) : Prop :=
  Stripped c.concept_name ∧ Stripped c.domain_id ∧ Stripped c.vocabulary_id ∧
    Stripped c.concept_class_id ∧ OptStripped c.standard_concept ∧
    Stripped c.concept_code ∧ OptStripped c.invalid_reason ∧
    validDate c.valid_start_date ∧ validDate c.valid_end_date

instance : DecidablePred Stripped := fun s => by unfold Stripped; infer_instance

instance : DecidablePred OptStripped := fun o => by
  unfold OptStripped; cases o <;> infer_instance

instance : DecidablePred WellFormedConcept := fun c => by
  unfold WellFormedConcept; infer_instance

/-! ### Derived predicates used to characterize `search_concepts` output -/

/-- The text/candidate condition a row satisfies in the mode selected by the
criteria: membership in the lexical matched-id union in lexical mode, the
name-or-code substring match in default mode with a query, and no condition
with no query. -/
def candidatePred (search : ConceptSearch) (db : VocabStore) (c : Concept) : Bool :=
  if search.is_lexical && !(search.query == "") then
    (lexMatchedIds (prepareTerms search.query) db).contains c.concept_id
  else if search.query == "" then true
  else textMatch search.query c

/-- All `_apply_filters` clauses except the standard-concept one. -/
def otherFiltersExceptStandard (search : ConceptSearch) (c : Concept) : Bool :=
  listClause search.vocabulary_id c.vocabulary_id &&
  listClause search.domain_id c.domain_id &&
  listClause search.concept_class_id c.concept_class_id &&
  invClause search.invalid_reason c.invalid_reason

/-- All `_apply_filters` clauses except the invalid-reason one. -/
def otherFiltersExceptInvalid (search : ConceptSearch) (c : Concept) : Bool :=
  listClause search.vocabulary_id c.vocabulary_id &&
  listClause search.domain_id c.domain_id &&
  listClause search.concept_class_id c.concept_class_id &&
  stdClause search.standard_concept c.standard_concept

/-- Concrete criteria for the filter-characterization witness: valid-only
sentinel on the invalid-reason filter. -/
def searchWitnessC7 : ConceptSearch := { query := "", invalid_reason := some "V" }

/-- Concrete one-concept store for the filter-characterization witness. -/
def dbWitnessC7 : VocabStore := { concepts := [conceptTest], synonyms := [] }

/-! ## Supporting lemmas -/

theorem isEmpty_eq_false_of_ne_nil {β : Type} {l : List β} (h : l ≠ []) :
    l.isEmpty = false := by
  cases l with
  | nil => exact absurd rfl h
  | cons a t => rfl

theorem mem_dedupKF {α : Type} [DecidableEq α] {a : α} {l : List α} :
    a ∈ dedupKF l ↔ a ∈ l := by
  induction l with
  | nil => simp [dedupKF]
  | cons b l ih =>
    simp only [dedupKF, List.mem_cons, List.mem_filter]
    constructor
    · rintro (rfl | ⟨h, -⟩)
      · exact .inl rfl
      · exact .inr (ih.mp h)
    · rintro (rfl | h)
      · exact .inl rfl
      · by_cases hab : a = b
        · exact .inl hab
        · exact .inr ⟨ih.mpr h, by simpa using hab⟩

theorem dedupKF_eq_self_of_nodup {α : Type} [DecidableEq α] {l : List α}
    (h : l.Nodup) : dedupKF l = l := by
  induction l with
  | nil => rfl
  | cons b l ih =>
    rcases List.nodup_cons.mp h with ⟨hb, hl⟩
    simp only [dedupKF, ih hl, List.cons.injEq, true_and]
    refine List.filter_eq_self.mpr fun a ha => ?_
    have : a ≠ b := fun hab => hb (hab ▸ ha)
    simpa using this

theorem mem_insertByScoreDesc {α : Type} (f : α → ℚ) (x a : α) (l : List α) :
    a ∈ insertByScoreDesc f x l ↔ a = x ∨ a ∈ l := by
  induction l with
  | nil => simp [insertByScoreDesc]
  | cons y ys ih =>
    simp only [insertByScoreDesc]
    split
    · simp
    · simp only [List.mem_cons, ih]
      tauto

theorem length_insertByScoreDesc {α : Type} (f : α → ℚ) (x : α) (l : List α) :
    (insertByScoreDesc f x l).length = l.length + 1 := by
  induction l with
  | nil => rfl
  | cons y ys ih =>
    simp only [insertByScoreDesc]
    split <;> simp [ih]

theorem mem_sortByScoreDesc {α : Type} (f : α → ℚ) (a : α) (l : List α) :
    a ∈ sortByScoreDesc f l ↔ a ∈ l := by
  induction l with
  | nil => simp [sortByScoreDesc]
  | cons y ys ih => simp [sortByScoreDesc, mem_insertByScoreDesc, ih]

theorem length_sortByScoreDesc {α : Type} (f : α → ℚ) (l : List α) :
    (sortByScoreDesc f l).length = l.length := by
  induction l with
  | nil => rfl
  | cons y ys ih => simp [sortByScoreDesc, length_insertByScoreDesc, ih]

theorem pairwise_insertByScoreDesc {α : Type} (f : α → ℚ) (x : α) (l : List α)
    (h : l.Pairwise (fun a b => f b ≤ f a)) :
    (insertByScoreDesc f x l).Pairwise (fun a b => f b ≤ f a) := by
  induction l with
  | nil => simp [insertByScoreDesc]
  | cons y ys ih =>
    rcases List.pairwise_cons.mp h with ⟨hy, hys⟩
    simp only [insertByScoreDesc]
    split
    · rename_i hlt
      refine List.pairwise_cons.mpr ⟨?_, h⟩
      intro b hb
      rcases List.mem_cons.mp hb with rfl | hb
      · exact le_of_lt hlt
      · exact le_trans (hy b hb) (le_of_lt hlt)
    · rename_i hnlt
      refine List.pairwise_cons.mpr ⟨?_, ih hys⟩
      intro b hb
      rcases (mem_insertByScoreDesc f x b ys).mp hb with rfl | hb
      · exact not_lt.mp hnlt
      · exact hy b hb

theorem pairwise_sortByScoreDesc {α : Type} (f : α → ℚ) (l : List α) :
    (sortByScoreDesc f l).Pairwise (fun a b => f b ≤ f a) := by
  induction l with
  | nil => simp [sortByScoreDesc]
  | cons y ys ih => exact pairwise_insertByScoreDesc f y _ ih

/-- Lowercasing neither creates nor destroys the characters stripped by
`clean_str` (spaces and hyphens map to themselves and no letter maps to
them). -/
theorem keepChar_lowerChar (c : Char) : keepChar (lowerChar c) = keepChar c := by
  unfold lowerChar
  split <;> rfl

/-- Length preservation `LEN(clean_str(lower(name))) = LEN(clean_str(name))`: the two L's of the
code's and the spec's score formulas agree. -/
theorem length_cleanChars_lowerList (l : List Char) :
    (cleanChars (lowerList l)).length = (cleanChars l).length := by
  unfold cleanChars lowerList
  rw [List.filter_map]
  have : keepChar ∘ lowerChar = keepChar := funext keepChar_lowerChar
  rw [this, List.length_map]

theorem digitVal_digitChar {n : Nat} (h : n < 10) : digitVal (digitChar n) = n := by
  interval_cases n <;> rfl

theorem isDigit_digitChar {n : Nat} (h : n < 10) : (digitChar n).isDigit = true := by
  interval_cases n <;> rfl

/-- ISO round trip: parsing a rendered valid date recovers it exactly. -/
theorem parseDate_renderDate {d : DateV} (h : validDate d) :
    parseDate (renderDate d) = some d := by
  obtain ⟨hy1, hy2, hm1, hm2, hd1, hd2⟩ := h
  have hmod : ∀ k : Nat, k % 10 < 10 := fun k => Nat.mod_lt _ (by omega)
  unfold parseDate renderDate pad4 pad2
  simp only [String.data]
  rw [show ([digitChar (d.year / 1000 % 10), digitChar (d.year / 100 % 10),
      digitChar (d.year / 10 % 10), digitChar (d.year % 10)] ++
      '-' :: ([digitChar (d.month / 10 % 10), digitChar (d.month % 10)] ++
      '-' :: [digitChar (d.day / 10 % 10), digitChar (d.day % 10)])) =
      [digitChar (d.year / 1000 % 10), digitChar (d.year / 100 % 10),
      digitChar (d.year / 10 % 10), digitChar (d.year % 10), '-',
      digitChar (d.month / 10 % 10), digitChar (d.month % 10), '-',
      digitChar (d.day / 10 % 10), digitChar (d.day % 10)] from rfl]
  simp only [isDigit_digitChar (hmod _), digitVal_digitChar (hmod _)]
  have hy : d.year / 1000 % 10 * 1000 + d.year / 100 % 10 * 100 +
      d.year / 10 % 10 * 10 + d.year % 10 = d.year := by omega
  have hm : d.month / 10 % 10 * 10 + d.month % 10 = d.month := by omega
  have hd : d.day / 10 % 10 * 10 + d.day % 10 = d.day := by omega
  simp only [hy, hm, hd]
  have hv : validDate ⟨d.year, d.month, d.day⟩ := ⟨hy1, hy2, hm1, hm2, hd1, hd2⟩
  simp [hv]

theorem optStripped_map {o : Option String} (h : OptStripped o) : o.map pyStrip = o := by
  cases o with
  | none => rfl
  | some s => simpa [Option.map] using h

/-- Pydantic validation is the identity on a well-formed concept row. -/
theorem validateConcept_eq_self {c : Concept} (h : WellFormedConcept c) :
    validateConcept c = c := by
  obtain ⟨h1, h2, h3, h4, h5, h6, h7, -, -⟩ := h
  unfold validateConcept
  rw [h1, h2, h3, h4, h6, optStripped_map h5, optStripped_map h7]

/-- The cache round trip (`model_dump_json` then `model_validate_json`) is
loss-free on well-formed concepts, date fields included. -/
theorem deserializeConcept_serializeConcept {c : Concept} (h : WellFormedConcept c) :
    deserializeConcept (serializeConcept c) = some c := by
  obtain ⟨h1, h2, h3, h4, h5, h6, h7, h8, h9⟩ := h
  unfold deserializeConcept serializeConcept
  simp only [parseDate_renderDate h8, parseDate_renderDate h9]
  rw [h1, h2, h3, h4, h6, optStripped_map h5, optStripped_map h7]

theorem cacheLookup_cacheInsert (cache : CacheState) (k : String) (w : ConceptWire) :
    cacheLookup (cacheInsert cache k w) k = some w := by
  simp [cacheLookup, cacheInsert, List.find?]

/-! ## Claims -/

/-- C5: for every concept identifier and every search criteria, running
`get_concept_by_id` or `search_concepts` with a cache client that raises on
every `get` and `set` call gives exactly the same outcome (value or error,
and cache state) as running with no cache at all; cache errors are swallowed
at each call site and the store query still runs. -/
theorem c5_cache_failure_transparent :
    (∀ (cache : CacheState) (concepts : List Concept) (concept_id : Int),
      get_concept_by_id (some .failing) cache concepts concept_id =
        get_concept_by_id none cache concepts concept_id) ∧
    (∀ (redis : Option CacheMode) (search : ConceptSearch) (limit offset : Nat)
      (db : VocabStore),
      search_concepts_svc (some .failing) search limit offset db =
        search_concepts_svc redis search limit offset db) := by
  constructor
  · intro cache concepts concept_id
    unfold get_concept_by_id
    cases findConcept concepts concept_id <;> rfl
  · intro redis search limit offset db
    rfl

/-- C3, counterexample: a concept whose stored name carries surrounding
whitespace is legal in the store, but `get_concept_by_id` does not return it
equal in every field — Pydantic validation (`str_strip_whitespace=True`)
strips the name on the store path already. -/
theorem c3_counterexample :
    (get_concept_by_id none [] [conceptPadded] 7).1 ≠ Except.ok conceptPadded ∧
    (get_concept_by_id none [] [conceptPadded] 7).1 =
      Except.ok { conceptPadded with concept_name := "Padded Name" } := by
  constructor
  · decide
  · decide

/-- C3, amended: for every stored concept whose string fields carry no
surrounding whitespace and whose dates are valid calendar dates,
`get_concept_by_id` returns it equal in every field on the store path, and a
second call — served from the cache entry the first call wrote, i.e. after
serialize → cache → deserialize — returns the same value (the round trip is
loss-free, date fields included). -/
theorem c3_get_concept_roundtrip (cache : CacheState) (concepts : List Concept)
    (c : Concept) (concept_id : Int)
    (hfind : findConcept concepts concept_id = some c)
    (hwf : WellFormedConcept c)
    (hmiss : cacheLookup cache (cacheKey concept_id) = none) :
    (get_concept_by_id (some .normal) cache concepts concept_id).1 = .ok c ∧
    (get_concept_by_id (some .normal)
      (get_concept_by_id (some .normal) cache concepts concept_id).2
      concepts concept_id).1 = .ok c := by
  have hval : validateConcept c = c := validateConcept_eq_self hwf
  have hfirst : get_concept_by_id (some .normal) cache concepts concept_id =
      (.ok c, cacheInsert cache (cacheKey concept_id) (serializeConcept c)) := by
    unfold get_concept_by_id
    rw [hmiss, hfind]
    simp [hval]
  refine ⟨by rw [hfirst], ?_⟩
  rw [hfirst]
  unfold get_concept_by_id
  rw [cacheLookup_cacheInsert]
  simp [deserializeConcept_serializeConcept hwf]

/-- C3, witness: the amended round-trip theorem applied to a concrete
well-formed concept on an empty cache. -/
theorem c3_get_concept_roundtrip_witness :
    (get_concept_by_id (some .normal) [] [conceptTest] 1).1 = .ok conceptTest ∧
    (get_concept_by_id (some .normal)
      (get_concept_by_id (some .normal) [] [conceptTest] 1).2 [conceptTest] 1).1 =
      .ok conceptTest :=
  c3_get_concept_roundtrip [] [conceptTest] conceptTest 1 (by decide) (by decide) (by decide)

/-- C1, code evaluated at the failing input: on a store with no concept
sets, `get_concept_set`, `update_concept_set` and `delete_concept_set` at
id 1 all raise the `ValidationError` class (message "... not found.") — the
same exception kind as input-validation errors — rather than a Not Found
error distinguishable by type. (The boundary layer `api/concept_set.py`
expects to catch a distinct `ConceptSetNotFound` imported from the service
module, which the service never defines.) -/
theorem c1_missing_set_raises_validation_error :
    get_concept_set emptyAppDB 1 =
      .error (.validation "Concept Set with ID 1 not found.") ∧
    (update_concept_set emptyAppDB 1 {} none).1 =
      .error (.validation "Concept Set with ID 1 not found.") ∧
    (delete_concept_set emptyAppDB 1).1 =
      .error (.validation "Concept Set with ID 1 not found.") ∧
    (ServiceError.validation "Concept Set with ID 1 not found.").kind =
      ErrKind.validationKind := by
  refine ⟨by decide, by decide, by decide, rfl⟩

/-- C9, code evaluated at the failing input: updating an existing set with
an empty-string name, or with the set's current name ("Set A"), does not
succeed and does not leave the name check unexercised by choice — the rename
guard itself reads `data.name`, which raises `AttributeError` because the
`ConceptSetUpdate` field is `concept_set_name` (alias `name`); the store is
left unchanged only because the request dies, whatever integrity outcome the
flush would have reported. -/
theorem c9_update_name_noop_crashes :
    (∀ flushErr, update_concept_set dbOneSet 1 { name := some "", items := none }
        flushErr = (.error (.attributeError "name"), dbOneSet)) ∧
    (∀ flushErr, update_concept_set dbOneSet 1 { name := some "Set A", items := none }
        flushErr = (.error (.attributeError "name"), dbOneSet)) :=
  ⟨fun _ => rfl, fun _ => rfl⟩

/-- C8, code evaluated at the failing inputs: every update of an existing
set — explicit empty item list, omitted item list, or any supplied list —
raises `AttributeError` at the `data.name` read of line 125 before the items
branch is reached, so none of the claimed replacement/no-op behaviors ever
occurs; the store is only unchanged because the request dies. -/
theorem c8_update_items_unreachable :
    (∀ flushErr, update_concept_set dbOneSet 1 { name := none, items := some [] }
        flushErr = (.error (.attributeError "name"), dbOneSet)) ∧
    (∀ flushErr, update_concept_set dbOneSet 1 { name := none, items := none }
        flushErr = (.error (.attributeError "name"), dbOneSet)) ∧
    (∀ flushErr its, update_concept_set dbOneSet 1 { name := none, items := some its }
        flushErr = (.error (.attributeError "name"), dbOneSet)) :=
  ⟨fun _ => rfl, fun _ => rfl, fun _ _ => rfl⟩

/-- C2, code evaluated at the failing input: a create request that passes
item validation, and every update of an existing set, raise `AttributeError`
at the `data.name` reads (lines 69 and 125) before the guarded flush, for
every integrity outcome the store could report — so no integrity violation
is ever observed, translated into the duplicate-name error, or re-raised by
the manager. -/
theorem c2_integrity_handler_unreachable :
    (∀ flushErr, create_concept_set emptyAppDB { name := "Some Set", items := [] } 1
        flushErr = (.error (.attributeError "name"), emptyAppDB)) ∧
    (∀ flushErr data, update_concept_set dbOneSet 1 data flushErr =
      (.error (.attributeError "name"), dbOneSet)) :=
  ⟨fun _ => rfl, fun _ _ => rfl⟩


/-- C6, counterexample: a create request whose item list references the
absent concept id 999 twice raises the duplicate-items `ValidationError`
(the duplicate check runs first), not a Concept Reference error, so the
claim does not hold of every request referencing a missing id. -/
theorem c6_counterexample :
    (create_concept_set emptyAppDB
      { name := "S",
        items := [{ concept_id := 999 }, { concept_id := 999 }] } 1 none).1 =
      .error (.validation "Duplicate concept IDs found in the items list.") ∧
    (ServiceError.validation "Duplicate concept IDs found in the items list.").kind ≠
      ErrKind.conceptReference := by
  refine ⟨by decide, by decide⟩

/-- C6, amended: for every create request whose item list is free of
duplicate concept ids and references at least one id absent from the
concept table, `create_concept_set` raises the `ConceptNotFound` error
carrying exactly the set of missing ids, and the store state is unchanged
(no `ConceptSet` row, no `ConceptSetItem` rows). -/
theorem c6_create_missing_concepts (db : AppDB) (data : ConceptSetCreate)
    (user_id : Nat) (flushErr : Option IntegrityViolation)
    (hnodup : (data.items.map (fun it => it.concept_id)).Nodup)
    (i : Int) (hi : i ∈ data.items.map (fun it => it.concept_id))
    (hmiss : findConcept db.concepts i = none) :
    ∃ missing,
      create_concept_set db data user_id flushErr =
        (.error (.conceptNotFound missing), db) ∧
      missing ≠ [] ∧
      ∀ j, j ∈ missing ↔ (j ∈ data.items.map (fun it => it.concept_id) ∧
        findConcept db.concepts j = none) := by
  have hdk : dedupKF (data.items.map (fun it => it.concept_id)) =
      data.items.map (fun it => it.concept_id) := dedupKF_eq_self_of_nodup hnodup
  have hempty : (data.items.map (fun it => it.concept_id)).isEmpty = false :=
    isEmpty_eq_false_of_ne_nil (List.ne_nil_of_mem hi)
  have hmem : i ∈ (data.items.map (fun it => it.concept_id)).filter
      (fun j => (findConcept db.concepts j).isNone) :=
    List.mem_filter.mpr ⟨hi, by simp [hmiss]⟩
  have hmempty : ((data.items.map (fun it => it.concept_id)).filter
      (fun j => (findConcept db.concepts j).isNone)).isEmpty = false :=
    isEmpty_eq_false_of_ne_nil (List.ne_nil_of_mem hmem)
  refine ⟨(data.items.map (fun it => it.concept_id)).filter
    (fun j => (findConcept db.concepts j).isNone), ?_, List.ne_nil_of_mem hmem, ?_⟩
  · have hv : _validate_items db.concepts data.items =
        .error (.conceptNotFound ((data.items.map (fun it => it.concept_id)).filter
          (fun j => (findConcept db.concepts j).isNone))) := by
      unfold _validate_items
      simp [hdk, hempty, hmempty]
    unfold create_concept_set
    rw [hv]
  · intro j
    rw [List.mem_filter]
    simp [Option.isNone_iff_eq_none]

/-- C6, witness: creating a set over an empty concept table with a single
item referencing id 999. -/
theorem c6_create_missing_concepts_witness :
    ∃ missing,
      create_concept_set emptyAppDB { name := "S", items := [{ concept_id := 999 }] }
          1 none =
        (.error (.conceptNotFound missing), emptyAppDB) ∧
      missing ≠ [] ∧
      ∀ j, j ∈ missing ↔
        (j ∈ ({ name := "S", items := [{ concept_id := 999 }] } :
            ConceptSetCreate).items.map (fun it => it.concept_id) ∧
          findConcept emptyAppDB.concepts j = none) :=
  c6_create_missing_concepts emptyAppDB { name := "S", items := [{ concept_id := 999 }] }
    1 none (by decide) 999 (by decide) (by decide)

theorem mem_searchRows (search : ConceptSearch) (db : VocabStore) (r : Concept) :
    r ∈ (if search.is_lexical && !(search.query == "") then searchLexicalRows search db
        else searchDefaultRows search db) ↔
      r ∈ db.concepts ∧ candidatePred search db r = true ∧ filterPred search r = true := by
  by_cases hmode : (search.is_lexical && !(search.query == "")) = true
  · rw [if_pos hmode]
    unfold searchLexicalRows candidatePred _apply_filters
    rw [mem_sortByScoreDesc]
    simp only [List.mem_filter, hmode, if_pos]
    tauto
  · rw [if_neg hmode]
    unfold searchDefaultRows candidatePred _apply_filters
    rw [if_neg hmode]
    by_cases hq : (search.query == "") = true
    · simp only [hq, if_pos, List.mem_filter]
      tauto
    · rw [if_neg hq, if_neg hq]
      simp only [List.mem_filter]
      tauto

theorem length_searchRows_le (search : ConceptSearch) (db : VocabStore) :
    (if search.is_lexical && !(search.query == "") then searchLexicalRows search db
      else searchDefaultRows search db).length ≤ db.concepts.length := by
  by_cases hmode : (search.is_lexical && !(search.query == "")) = true
  · rw [if_pos hmode]
    unfold searchLexicalRows _apply_filters
    rw [length_sortByScoreDesc]
    exact le_trans (List.length_filter_le _ _) (List.length_filter_le _ _)
  · rw [if_neg hmode]
    unfold searchDefaultRows _apply_filters
    by_cases hq : (search.query == "") = true
    · rw [if_pos hq]
      exact List.length_filter_le _ _
    · rw [if_neg hq]
      exact le_trans (List.length_filter_le _ _) (List.length_filter_le _ _)

/-- Membership characterization of the full `search_concepts` output when
the limit covers the store and the offset is zero. -/
theorem mem_search_concepts (search : ConceptSearch) (db : VocabStore) (limit : Nat)
    (hl : db.concepts.length ≤ limit) (x : Concept) :
    x ∈ search_concepts search limit 0 db ↔
      ∃ r, r ∈ db.concepts ∧ candidatePred search db r = true ∧
        filterPred search r = true ∧ x = validateConcept r := by
  unfold search_concepts
  simp only [List.drop_zero]
  rw [List.take_of_length_le (le_trans (length_searchRows_le search db) hl)]
  rw [List.mem_map]
  constructor
  · rintro ⟨r, hr, rfl⟩
    rcases (mem_searchRows search db r).mp hr with ⟨h1, h2, h3⟩
    exact ⟨r, h1, h2, h3, rfl⟩
  · rintro ⟨r, h1, h2, h3, rfl⟩
    exact ⟨r, (mem_searchRows search db r).mpr ⟨h1, h2, h3⟩, rfl⟩

theorem bool_regroup_std (a b c d e : Bool) :
    (a && b && c && d && e) = ((a && b && c && e) && d) := by
  revert a b c d e; decide

theorem filterPred_decomp_std (search : ConceptSearch) (c : Concept) :
    filterPred search c = (otherFiltersExceptStandard search c &&
      stdClause search.standard_concept c.standard_concept) := by
  unfold filterPred otherFiltersExceptStandard
  rw [bool_regroup_std]

theorem filterPred_decomp_inv (search : ConceptSearch) (c : Concept) :
    filterPred search c = (otherFiltersExceptInvalid search c &&
      invClause search.invalid_reason c.invalid_reason) := by
  unfold filterPred otherFiltersExceptInvalid
  rw [Bool.and_assoc]

/-- C7: with the limit covering the store and offset 0, `search_concepts`
with `STANDARD_CONCEPT = "N"` returns exactly the criteria-matching concepts
whose standard flag is NULL; with any other (non-empty) literal code,
exactly those whose flag equals that code; and `INVALID_REASON = "V"`
selects exactly NULL invalid-reason, any other literal code exact equality.
(`""` is excluded: Python truthiness makes an empty-string criterion apply
no filter at all, and the one-character code domain never contains it.) -/
theorem c7_null_sentinel_filters (db : VocabStore) (search : ConceptSearch)
    (limit : Nat) (hl : db.concepts.length ≤ limit) (code : String)
    (hcode : code ≠ "") :
    (search.standard_concept = some "N" →
      ∀ x, x ∈ search_concepts search limit 0 db ↔
        ∃ r, r ∈ db.concepts ∧ candidatePred search db r = true ∧
          otherFiltersExceptStandard search r = true ∧
          r.standard_concept = none ∧ x = validateConcept r) ∧
    (search.standard_concept = some code → code ≠ "N" →
      ∀ x, x ∈ search_concepts search limit 0 db ↔
        ∃ r, r ∈ db.concepts ∧ candidatePred search db r = true ∧
          otherFiltersExceptStandard search r = true ∧
          r.standard_concept = some code ∧ x = validateConcept r) ∧
    (search.invalid_reason = some "V" →
      ∀ x, x ∈ search_concepts search limit 0 db ↔
        ∃ r, r ∈ db.concepts ∧ candidatePred search db r = true ∧
          otherFiltersExceptInvalid search r = true ∧
          r.invalid_reason = none ∧ x = validateConcept r) ∧
    (search.invalid_reason = some code → code ≠ "V" →
      ∀ x, x ∈ search_concepts search limit 0 db ↔
        ∃ r, r ∈ db.concepts ∧ candidatePred search db r = true ∧
          otherFiltersExceptInvalid search r = true ∧
          r.invalid_reason = some code ∧ x = validateConcept r) := by
  refine ⟨?_, ?_, ?_, ?_⟩
  · intro hstd x
    rw [mem_search_concepts search db limit hl x]
    refine exists_congr fun r => ?_
    rw [filterPred_decomp_std, Bool.and_eq_true]
    unfold stdClause
    rw [hstd]
    simp
    tauto
  · intro hstd hn x
    rw [mem_search_concepts search db limit hl x]
    refine exists_congr fun r => ?_
    rw [filterPred_decomp_std, Bool.and_eq_true]
    unfold stdClause
    rw [hstd]
    simp [hcode, hn]
    tauto
  · intro hinv x
    rw [mem_search_concepts search db limit hl x]
    refine exists_congr fun r => ?_
    rw [filterPred_decomp_inv, Bool.and_eq_true]
    unfold invClause
    rw [hinv]
    simp
    tauto
  · intro hinv hv x
    rw [mem_search_concepts search db limit hl x]
    refine exists_congr fun r => ?_
    rw [filterPred_decomp_inv, Bool.and_eq_true]
    unfold invClause
    rw [hinv]
    simp [hcode, hv]
    tauto

/-- C7, witness: the filter characterization applied to a concrete store and
concrete criteria (valid-only sentinel, literal code `"Z"`). -/
theorem c7_null_sentinel_filters_witness :
    (searchWitnessC7.standard_concept = some "N" →
      ∀ x, x ∈ search_concepts searchWitnessC7 20 0 dbWitnessC7 ↔
        ∃ r, r ∈ dbWitnessC7.concepts ∧ candidatePred searchWitnessC7 dbWitnessC7 r = true ∧
          otherFiltersExceptStandard searchWitnessC7 r = true ∧
          r.standard_concept = none ∧ x = validateConcept r) ∧
    (searchWitnessC7.standard_concept = some "Z" → "Z" ≠ "N" →
      ∀ x, x ∈ search_concepts searchWitnessC7 20 0 dbWitnessC7 ↔
        ∃ r, r ∈ dbWitnessC7.concepts ∧ candidatePred searchWitnessC7 dbWitnessC7 r = true ∧
          otherFiltersExceptStandard searchWitnessC7 r = true ∧
          r.standard_concept = some "Z" ∧ x = validateConcept r) ∧
    (searchWitnessC7.invalid_reason = some "V" →
      ∀ x, x ∈ search_concepts searchWitnessC7 20 0 dbWitnessC7 ↔
        ∃ r, r ∈ dbWitnessC7.concepts ∧ candidatePred searchWitnessC7 dbWitnessC7 r = true ∧
          otherFiltersExceptInvalid searchWitnessC7 r = true ∧
          r.invalid_reason = none ∧ x = validateConcept r) ∧
    (searchWitnessC7.invalid_reason = some "Z" → "Z" ≠ "V" →
      ∀ x, x ∈ search_concepts searchWitnessC7 20 0 dbWitnessC7 ↔
        ∃ r, r ∈ dbWitnessC7.concepts ∧ candidatePred searchWitnessC7 dbWitnessC7 r = true ∧
          otherFiltersExceptInvalid searchWitnessC7 r = true ∧
          r.invalid_reason = some "Z" ∧ x = validateConcept r) :=
  c7_null_sentinel_filters dbWitnessC7 searchWitnessC7 20 (by decide) "Z" (by decide)

/-- C10: `is_lexical = true` with an empty (default) query string does not
enter the lexical algorithm and does not fail — it runs the default mode
with no text predicate, returning the concepts restricted only by the
non-text filters, up to limit/offset; in particular the result is the same
as with `is_lexical = false`. -/
theorem c10_lexical_empty_query (dom voc cls : List String) (std inv : Option String)
    (limit offset : Nat) (db : VocabStore) :
    search_concepts
        { query := "", domain_id := dom, vocabulary_id := voc, concept_class_id := cls,
          standard_concept := std, invalid_reason := inv, is_lexical := true }
        limit offset db =
      (((_apply_filters
        { query := "", domain_id := dom, vocabulary_id := voc, concept_class_id := cls,
          standard_concept := std, invalid_reason := inv, is_lexical := true }
        db.concepts).drop offset).take limit).map validateConcept ∧
    search_concepts
        { query := "", domain_id := dom, vocabulary_id := voc, concept_class_id := cls,
          standard_concept := std, invalid_reason := inv, is_lexical := true }
        limit offset db =
      search_concepts
        { query := "", domain_id := dom, vocabulary_id := voc, concept_class_id := cls,
          standard_concept := std, invalid_reason := inv, is_lexical := false }
        limit offset db := by
  constructor
  · rfl
  · unfold search_concepts searchDefaultRows _apply_filters
    rfl

theorem lexicalScore_eq_specScore (name : String) (terms : List String) :
    lexicalScore name terms = specScore name terms := by
  unfold lexicalScore specScore
  simp only
  rw [length_cleanChars_lowerList]
  rcases Nat.eq_zero_or_pos (cleanChars name.data).length with h | h
  · simp [h]
  · rw [if_pos h, if_neg (by omega)]

theorem sortByScoreDesc_pair {α : Type} (f : α → ℚ) (a b : α) (h : ¬ f b < f a) :
    sortByScoreDesc f [a, b] = [b, a] := by
  simp only [sortByScoreDesc, insertByScoreDesc, if_neg h]

/-- C4: the lexical ranking expression equals the spec's `1 − R/L` formula
(`0` when `L = 0`), `_search_lexical` orders its rows descending by that
score, and on the concrete store holding "Test Concept" and "Test Concept
Extended" a lexical search for "Test Concept" scores them `1` and `1 − 8/19`
and ranks the exact match strictly first — even though the store lists the
longer name first. -/
theorem c4_lexical_ranking :
    (∀ name terms, lexicalScore name terms = specScore name terms) ∧
    (∀ (search : ConceptSearch) (db : VocabStore),
      List.Pairwise (fun a b =>
        lexicalScore b.concept_name (prepareTerms search.query) ≤
          lexicalScore a.concept_name (prepareTerms search.query))
        (searchLexicalRows search db)) ∧
    lexicalScore conceptTest.concept_name (prepareTerms searchLexicalTC.query) = 1 ∧
    lexicalScore conceptTestExtended.concept_name (prepareTerms searchLexicalTC.query) =
      1 - 8 / 19 ∧
    search_concepts searchLexicalTC 20 0 dbLexical =
      [validateConcept conceptTest, validateConcept conceptTestExtended] := by
  have hT : prepareTerms searchLexicalTC.query = ["concept", "test"] := by decide
  have hS1 : lexicalScore conceptTest.concept_name ["concept", "test"] = 1 := by
    have e1 : (cleanChars conceptTest.concept_name.data).length = 11 := by decide
    have e2 : (cleanChars (removeTerms ["concept", "test"]
        (lowerList conceptTest.concept_name.data))).length = 0 := by decide
    simp only [lexicalScore, e1, e2]
    norm_num
  have hS2 : lexicalScore conceptTestExtended.concept_name ["concept", "test"] =
      1 - 8 / 19 := by
    have e1 : (cleanChars conceptTestExtended.concept_name.data).length = 19 := by decide
    have e2 : (cleanChars (removeTerms ["concept", "test"]
        (lowerList conceptTestExtended.concept_name.data))).length = 8 := by decide
    simp only [lexicalScore, e1, e2]
    norm_num
  have hRows : searchLexicalRows searchLexicalTC dbLexical =
      [conceptTest, conceptTestExtended] := by
    have hcand : dbLexical.concepts.filter (fun c =>
        (lexMatchedIds ["concept", "test"] dbLexical).contains c.concept_id) =
        [conceptTestExtended, conceptTest] := by decide
    have hfilt : _apply_filters searchLexicalTC [conceptTestExtended, conceptTest] =
        [conceptTestExtended, conceptTest] := by decide
    unfold searchLexicalRows
    simp only
    rw [hT, hcand, hfilt]
    refine sortByScoreDesc_pair _ conceptTestExtended conceptTest ?_
    rw [hS1, hS2]
    norm_num
  refine ⟨fun name terms => lexicalScore_eq_specScore name terms, ?_, hT ▸ hS1, hT ▸ hS2, ?_⟩
  · intro search db
    unfold searchLexicalRows
    exact pairwise_sortByScoreDesc _ _
  · unfold search_concepts
    rw [if_pos (by decide)]
    rw [hRows]
    decide

end OmopAtlas
